import Mathlib

/-!
Shallow embedding of the code execution engine of
`src/backend/app/services/code_execution_service.py`.

External effects (subprocess spawning, the temporary-directory filesystem,
exceptions raised by the runtime) are modelled by an explicit environment
`Env` describing what the outside world does on each call, and the service
functions are translated into pure Lean functions over that environment.
A propagated Python exception is modelled as `Except.error`; filesystem
side effects (workspace creation/cleanup) are recorded in a `Trace`.
Python floats that are only passed around and compared (time limits,
process durations) are modelled as rationals.
-/

set_option linter.unusedVariables false

/-- Result of code execution; embeds the pydantic model `ExecutionResult`
(fields default to `None` as in the source). -/
structure ExecutionResult where
  stdout : Option String := none
  stderr : Option String := none
  compile_output : Option String := none
  status : String
  status_id : Int
  time : Option String := none
  memory : Option Int := none
  exit_code : Option Int := none
  deriving DecidableEq, Repr

/-- The dict `LANGUAGE_MAP` (language key to Judge0 language id), embedded as
its lookup function; `none` models `language not in LANGUAGE_MAP`. -/
def LANGUAGE_MAP (language : String) : Option Int :=
  if language = "python" then some 71
  else if language = "c" then some 50
  else if language = "cpp" then some 54
  else if language = "java" then some 62
  else if language = "javascript" then some 63
  else none

/-- One entry of the `lang_config` dict in `_fallback_execute`. -/
structure LangConfig where
  ext : String
  compile : Option (List String)
  run : List String
  deriving DecidableEq, Repr

/-- The `lang_config` dict of `_fallback_execute`, embedded as its lookup
function (`python_exe` stands for `sys.executable`). -/
def lang_config (python_exe : String) (language : String) : Option LangConfig :=
  if language = "python" then some { ext := ".py", compile := none, run := [python_exe] }
  else if language = "javascript" then some { ext := ".js", compile := none, run := ["node"] }
  else if language = "c" then some { ext := ".c", compile := some ["gcc", "-o"], run := [] }
  else if language = "cpp" then some { ext := ".cpp", compile := some ["g++", "-o"], run := [] }
  else if language = "java" then some { ext := ".java", compile := some ["javac"], run := ["java"] }
  else none

/-- Behavior of one spawned process when it launches: its wall-clock duration
(compared against the `asyncio.wait_for` timeout), the bytes it writes to
stdout and stderr (decoded; empty string models zero bytes, which Python's
`if stdout` treats as falsy), and its exit code. -/
structure ProcBehavior where
  duration : Rat
  stdout : String
  stderr : String
  returncode : Int
  deriving DecidableEq, Repr

/-- Outcome of `asyncio.create_subprocess_exec`: either the executable is
missing (`FileNotFoundError`) or a process runs with some behavior. -/
inductive SpawnOutcome where
  | notFound
  | ok (b : ProcBehavior)
  deriving DecidableEq, Repr

/-- An exception raised while writing the source file: either a
`FileNotFoundError` (caught by the `except FileNotFoundError` handler) or any
other `Exception` (caught by the catch-all handler). -/
inductive Fault where
  | fileNotFound (msg : String)
  | otherExc (msg : String)
  deriving DecidableEq, Repr

/-- What the outside world does during one `_fallback_execute` call. -/
structure Env where
  python_exe : String := "python3"
  tempDir : String := "/tmp/tmpwork"
  mkdtempFault : Option String := none
  writeFault : Option Fault := none
  compileSpawn : SpawnOutcome := .ok { duration := 0, stdout := "", stderr := "", returncode := 0 }
  runSpawn : SpawnOutcome := .ok { duration := 0, stdout := "", stderr := "", returncode := 0 }
  cleanupFails : Bool := false
  traceback : String := ""
  deriving DecidableEq, Repr

/-- Filesystem side effects observed during one call. -/
structure Trace where
  workspaceCreated : Bool := false
  compileAttempted : Bool := false
  runAttempted : Bool := false
  cleanupAttempted : Bool := false
  workspaceDeleted : Bool := false
  deriving DecidableEq, Repr

/-- Result of one engine call: the returned `ExecutionResult`, or
`Except.error` when a Python exception propagates to the caller, together
with the filesystem trace. -/
structure EngineOut where
  result : Except String ExecutionResult
  trace : Trace
  deriving Repr

/-- Exit through the `finally` clause of `_fallback_execute`: the workspace
was created, cleanup is always attempted, and a cleanup failure is swallowed
(`except: pass`), only leaving the directory behind. -/
def finishOut (env : Env) (r : ExecutionResult) (compileAttempted runAttempted : Bool) : EngineOut :=
  { result := .ok r,
    trace := { workspaceCreated := true, compileAttempted := compileAttempted,
               runAttempted := runAttempted, cleanupAttempted := true,
               workspaceDeleted := !env.cleanupFails } }

/-- The compile block of `_fallback_execute` (lines 162-196): `some r` means
the compile phase terminated the request with result `r` (compiler missing,
compile timeout via the outer `asyncio.TimeoutError` handler, or non-zero
compiler exit); `none` means compilation succeeded and the run phase follows.
The compile `wait_for` deadline is the fixed 30.0. -/
def compile_phase (env : Env) (language : String) (compile_list : List String)
    (temp_dir source_file : String) : Option ExecutionResult :=
  match env.compileSpawn with
  | .notFound =>
      some { status := "Compiler Not Found", status_id := -1,
             stderr := some (compile_list.headD "" ++ " not found. Please install "
               ++ compile_list.headD "" ++ " to run " ++ language ++ " code locally.") }
  | .ok b =>
      if b.duration > 30 then
        some { status := "Time Limit Exceeded", status_id := 5,
               stderr := some "Execution timed out (5 second limit)" }
      else if b.returncode ≠ 0 then
        some { stdout := none, stderr := none,
               compile_output := some (if b.stderr = "" then "Compilation failed" else b.stderr),
               status := "Compilation Error", status_id := 6,
               exit_code := some b.returncode }
      else none

/-- The run command construction of `_fallback_execute` (lines 198-204). -/
def run_command (language : String) (config : LangConfig)
    (temp_dir source_file : String) : List String :=
  if language = "c" ∨ language = "cpp" then [temp_dir ++ "/program"]
  else if language = "java" then ["java", "-cp", temp_dir, "Solution"]
  else config.run ++ [source_file]

/-- The run block of `_fallback_execute` (lines 206-240): spawn the run
command (a missing executable names `run_command` head in the message), wait
with the hard-coded 5.0-second `wait_for` deadline (the `time_limit` argument
of `execute_code` is never forwarded here), and classify the outcome. Empty
captured bytes become `none` via `stdout.decode() if stdout else None`. -/
def run_phase (env : Env) (language : String) (config : LangConfig)
    (temp_dir source_file : String) : ExecutionResult :=
  match env.runSpawn with
  | .notFound =>
      { status := "Runtime Not Found", status_id := -1,
        stderr := some (((run_command language config temp_dir source_file).headD "")
          ++ " not found. Please install it to run " ++ language ++ " code locally.") }
  | .ok b =>
      if b.duration > 5 then
        { status := "Time Limit Exceeded", status_id := 5,
          stderr := some "Execution timed out (5 second limit)" }
      else
        { stdout := if b.stdout = "" then none else some b.stdout,
          stderr := if b.stderr = "" then none else some b.stderr,
          status := if b.returncode = 0 then "Accepted" else "Runtime Error",
          status_id := if b.returncode = 0 then 3 else 11,
          exit_code := some b.returncode }

/-- The source file path written inside the workspace (lines 152-156): Java
requires the fixed class-matching name `Solution.java`. -/
def source_file_name (env : Env) (language : String) (config : LangConfig) : String :=
  if language = "java" then env.tempDir ++ "/Solution.java"
  else env.tempDir ++ "/code" ++ config.ext

/-- `CodeExecutionService._fallback_execute`. `tempfile.mkdtemp()` sits
before the `try`, so a fault there propagates (`Except.error`) and no
cleanup runs; every path inside the `try` exits through `finally`
(`finishOut`). A source-write exception lands in `except FileNotFoundError`
(line 241) or the catch-all `except Exception` (line 247). -/
def fallback_execute (env : Env) (source_code language : String)
    (stdin : Option String) : EngineOut :=
  match lang_config env.python_exe language with
  | none =>
      { result := .ok { status := "Unsupported", status_id := -1,
                        stderr := some ("Unsupported language: " ++ language) },
        trace := {} }
  | some config =>
      match env.mkdtempFault with
      | some msg => { result := .error msg, trace := {} }
      | none =>
          match env.writeFault with
          | some (.fileNotFound msg) =>
              finishOut env { status := "Runtime Not Found", status_id := -1,
                              stderr := some ("Could not find runtime: " ++ msg) } false false
          | some (.otherExc msg) =>
              finishOut env { status := "Error", status_id := -1,
                              stderr := some ("Execution error: " ++ msg ++ "\n" ++ env.traceback) }
                false false
          | none =>
              match config.compile with
              | some compile_list =>
                  match compile_phase env language compile_list env.tempDir
                      (source_file_name env language config) with
                  | some r => finishOut env r true false
                  | none =>
                      finishOut env (run_phase env language config env.tempDir
                        (source_file_name env language config)) true true
              | none =>
                  finishOut env (run_phase env language config env.tempDir
                    (source_file_name env language config)) false true

/-- `CodeExecutionService.execute_code`: rejects a language missing from
`LANGUAGE_MAP` with status `"Error"` and status id `-1`, otherwise always
delegates to `_fallback_execute` (the Judge0 submission dict is built but
never sent, and `time_limit` / `memory_limit` are not forwarded). -/
def execute_code (env : Env) (source_code language : String)
    (stdin expected_output : Option String) (time_limit : Rat)
    (memory_limit : Int) : EngineOut :=
  if LANGUAGE_MAP language = none then
    { result := .ok { status := "Error", status_id := -1,
                      stderr := some ("Unsupported language: " ++ language) },
      trace := {} }
  else
    fallback_execute env source_code language stdin

/-- Python's `str.strip()` whitespace set (ASCII part). -/
def isPyWhitespace (c : Char) : Bool :=
  c = ' ' || c = '\t' || c = '\n' || c = '\r' || c = '\x0b' || c = '\x0c'

/-- Python's `str.strip()`: remove leading and trailing whitespace. -/
def pyStrip (s : String) : String :=
  String.mk (((s.data.dropWhile isPyWhitespace).reverse.dropWhile isPyWhitespace).reverse)

/-- Python's `a or b` on optional strings: `a` unless it is `None` or empty. -/
def pyOr (a b : Option String) : Option String :=
  match a with
  | some s => if s = "" then b else some s
  | none => b

/-- One test case dict: `input` / `expected_output` keys, possibly absent
(`dict.get`). -/
structure TestCase where
  input : Option String := none
  expected_output : Option String := none
  deriving DecidableEq, Repr

/-- One per-case entry of the `results` list built by `check_solution`. -/
structure TestCaseResult where
  test_case : Nat
  passed : Bool
  input : String
  expected : String
  actual : String
  status : String
  time : Option String
  error : Option String
  deriving DecidableEq, Repr

/-- The report dict returned by `check_solution`. -/
structure CheckReport where
  passed : Nat
  total : Nat
  all_passed : Bool
  results : List TestCaseResult
  deriving DecidableEq, Repr

/-- The body of the `check_solution` loop for test case number `i` (0-based):
call `execute_code` with this case's input, compare stripped stdout against
the stripped expected output, and record the entry. An exception escaping
`execute_code` propagates out of the loop. -/
def run_case (env : Env) (source_code language : String) (time_limit : Rat)
    (i : Nat) (tc : TestCase) : Except String TestCaseResult :=
  match (execute_code env source_code language (some (tc.input.getD ""))
      tc.expected_output time_limit 128000).result with
  | .error e => .error e
  | .ok result =>
      let actual_output := pyStrip (result.stdout.getD "")
      let expected_output := pyStrip (tc.expected_output.getD "")
      let is_correct := actual_output == expected_output
      .ok { test_case := i + 1, passed := is_correct,
            input := tc.input.getD "",
            expected := expected_output, actual := actual_output,
            status := result.status, time := result.time,
            error := pyOr result.stderr result.compile_output }

/-- `CodeExecutionService.check_solution`: run every test case in order
(`env i` describes the world during case `i`), count passes, and aggregate
`all_passed = (passed == total)`. -/
def check_solution (env : Nat → Env) (source_code language : String)
    (test_cases : List TestCase) (time_limit : Rat) : Except String CheckReport :=
  match (test_cases.enum.mapM fun p => run_case (env p.1) source_code language time_limit p.1 p.2) with
  | .error e => .error e
  | .ok results =>
      let passed := results.countP (·.passed)
      .ok { passed := passed, total := test_cases.length,
            all_passed := passed == test_cases.length,
            results := results }

/-! ### Helper lemmas -/

/-- A language accepted by `execute_code`'s gate is one of the five supported
keys. -/
lemma supported_lang_cases (l : String) (hl : ¬ LANGUAGE_MAP l = none) :
    l = "python" ∨ l = "c" ∨ l = "cpp" ∨ l = "java" ∨ l = "javascript" := by
  by_cases h1 : l = "python"
  · exact Or.inl h1
  by_cases h2 : l = "c"
  · exact Or.inr (Or.inl h2)
  by_cases h3 : l = "cpp"
  · exact Or.inr (Or.inr (Or.inl h3))
  by_cases h4 : l = "java"
  · exact Or.inr (Or.inr (Or.inr (Or.inl h4)))
  by_cases h5 : l = "javascript"
  · exact Or.inr (Or.inr (Or.inr (Or.inr h5)))
  exact absurd (by simp [LANGUAGE_MAP, h1, h2, h3, h4, h5]) hl

/-- `LANGUAGE_MAP` and the `lang_config` dict of `_fallback_execute` have the
same key set: any language past the `execute_code` gate has a toolchain
config. -/
lemma lang_config_of_supported (pe l : String) (hl : ¬ LANGUAGE_MAP l = none) :
    ∃ cfg, lang_config pe l = some cfg := by
  rcases supported_lang_cases l hl with h | h | h | h | h <;> subst h <;> exact ⟨_, rfl⟩

/-- Once the workspace is created, `_fallback_execute` always exits through
the `finally` clause: every path yields `finishOut`. -/
lemma fallback_shape (env : Env) (s l : String) (st : Option String) (cfg : LangConfig)
    (hcfg : lang_config env.python_exe l = some cfg) (hmk : env.mkdtempFault = none) :
    ∃ r c ru, fallback_execute env s l st = finishOut env r c ru := by
  unfold fallback_execute
  rw [hcfg, hmk]
  repeat' first
  | exact ⟨_, _, _, rfl⟩
  | contradiction
  | split

/-- The returned result of `_fallback_execute` does not depend on whether
workspace deletion succeeds (`shutil.rmtree` failures are swallowed). -/
lemma fallback_result_cleanup_independent (env : Env) (s l : String) (st : Option String)
    (b b' : Bool) :
    (fallback_execute { env with cleanupFails := b } s l st).result
      = (fallback_execute { env with cleanupFails := b' } s l st).result := by
  rcases env with ⟨pe, td, mk, wf, cs, rs, cf, tb⟩
  show (fallback_execute ⟨pe, td, mk, wf, cs, rs, b, tb⟩ s l st).result
      = (fallback_execute ⟨pe, td, mk, wf, cs, rs, b', tb⟩ s l st).result
  unfold fallback_execute compile_phase run_phase finishOut run_command source_file_name
  dsimp only
  repeat' first
  | rfl
  | contradiction
  | split

/-- With the workspace successfully created, no exception escapes
`_fallback_execute` (everything inside the `try` is caught). -/
lemma fallback_no_raise (env : Env) (s l : String) (st : Option String)
    (hmk : env.mkdtempFault = none) :
    ∃ r, (fallback_execute env s l st).result = .ok r := by
  unfold fallback_execute
  rw [hmk]
  repeat' first
  | exact ⟨_, rfl⟩
  | contradiction
  | split

/-! ### Claim theorems -/

/-- C1: the run-phase deadline is NOT the request's `time_limit`: the result
of `execute_code` is entirely independent of the `time_limit` (and
`memory_limit`) arguments, because `_fallback_execute` hard-codes a
5.0-second `wait_for` deadline; concretely, a request with
`time_limit = 10` whose program runs for 7 seconds is judged
`Time Limit Exceeded` (status id 5) instead of completing. The compile
phase does use the separate fixed 30-second ceiling. -/
theorem c1_time_limit_not_forwarded :
    (∀ (env : Env) (s l : String) (st eo : Option String) (t t' : Rat) (m m' : Int),
        execute_code env s l st eo t m = execute_code env s l st eo t' m')
    ∧ (execute_code
          { runSpawn := .ok { duration := 7, stdout := "", stderr := "", returncode := 0 } }
          "import time\ntime.sleep(7)" "python" none none 10 128000).result =
        .ok { status := "Time Limit Exceeded", status_id := 5,
              stderr := some "Execution timed out (5 second limit)" } :=
  ⟨fun _ _ _ _ _ _ _ _ _ => rfl, rfl⟩

/-- C2 counterexample: for the unsupported language `"ruby"`, `execute_code`
returns status text `"Error"`, not the verdict `"Unsupported"` claimed by the
spec (that status string only occurs on an unreachable branch of
`_fallback_execute`). -/
theorem c2_unsupported_counterexample :
    (execute_code {} "print(1)" "ruby" none none 5 128000).result =
      .ok { status := "Error", status_id := -1,
            stderr := some "Unsupported language: ruby" }
    ∧ "Error" ≠ "Unsupported" :=
  ⟨rfl, by decide⟩

/-- C2 amended: for every language outside the supported set, `execute_code`
immediately returns a result with status `"Error"`, status id `-1` and a
stderr naming the unsupported language, and no workspace is created (the
trace is the empty default). -/
theorem c2_unsupported_no_workspace (env : Env) (s l : String) (st eo : Option String)
    (t : Rat) (m : Int) (h : LANGUAGE_MAP l = none) :
    execute_code env s l st eo t m =
      { result := .ok { status := "Error", status_id := -1,
                        stderr := some ("Unsupported language: " ++ l) },
        trace := {} } := by
  unfold execute_code
  rw [if_pos h]

/-- C2 witness: instantiation at the unsupported language `"ruby"`. -/
theorem c2_unsupported_no_workspace_witness :
    execute_code {} "print(1)" "ruby" none none 5 128000 =
      { result := .ok { status := "Error", status_id := -1,
                        stderr := some ("Unsupported language: " ++ "ruby") },
        trace := {} } :=
  c2_unsupported_no_workspace {} "print(1)" "ruby" none none 5 128000 rfl

/-- C6 counterexample: a fault raised by `tempfile.mkdtemp()` — which happens
after language resolution but before the `try` block — propagates to the
caller of `execute_code` as an exception instead of being converted to an
`InternalError`-style result. -/
theorem c6_mkdtemp_fault_propagates :
    (execute_code { mkdtempFault := some "disk full" } "print(1)" "python"
        none none 5 128000).result = .error "disk full" :=
  rfl

/-- C6 amended: provided workspace creation itself does not fault, no
exception escapes `execute_code`, and an unexpected fault raised inside the
`try` block (modelled at the source-write step) is converted to a returned
result with status `"Error"`, status id `-1`, and diagnostic text (message
plus traceback) in stderr. -/
theorem c6_fault_converted_to_error (env : Env) (s l : String) (st eo : Option String)
    (t : Rat) (m : Int) (hmk : env.mkdtempFault = none) :
    (∃ r, (execute_code env s l st eo t m).result = .ok r)
    ∧ (∀ msg, env.writeFault = some (.otherExc msg) → ¬ LANGUAGE_MAP l = none →
        (execute_code env s l st eo t m).result =
          .ok { status := "Error", status_id := -1,
                stderr := some ("Execution error: " ++ msg ++ "\n" ++ env.traceback) }) := by
  constructor
  · unfold execute_code
    split
    · exact ⟨_, rfl⟩
    · exact fallback_no_raise env s l st hmk
  · intro msg hwf hl
    obtain ⟨cfg, hcfg⟩ := lang_config_of_supported env.python_exe l hl
    unfold execute_code
    rw [if_neg hl]
    unfold fallback_execute
    rw [hcfg, hmk, hwf]
    rfl

/-- C6 witness: instantiation with a fault `"boom"` raised while writing the
source file of a python request. -/
theorem c6_fault_converted_to_error_witness :
    (∃ r, (execute_code { writeFault := some (.otherExc "boom"), traceback := "tb" }
        "print(1)" "python" none none 5 128000).result = .ok r)
    ∧ (∀ msg, ({ writeFault := some (.otherExc "boom"), traceback := "tb" } : Env).writeFault
          = some (.otherExc msg) → ¬ LANGUAGE_MAP "python" = none →
        (execute_code { writeFault := some (.otherExc "boom"), traceback := "tb" }
            "print(1)" "python" none none 5 128000).result =
          .ok { status := "Error", status_id := -1,
                stderr := some ("Execution error: " ++ msg ++ "\n" ++ "tb") }) :=
  c6_fault_converted_to_error { writeFault := some (.otherExc "boom"), traceback := "tb" }
    "print(1)" "python" none none 5 128000 rfl

/-- C5: for every request that reaches workspace creation (supported language,
`mkdtemp` succeeded), after `execute_code` returns the workspace was created
and its deletion was attempted on every exit path; when deletion does not
fail the directory is gone; and a deletion failure neither changes the
returned result nor raises to the caller. -/
theorem c5_workspace_cleanup (env : Env) (s l : String) (st eo : Option String)
    (t : Rat) (m : Int) (hmk : env.mkdtempFault = none) (hl : ¬ LANGUAGE_MAP l = none) :
    (execute_code env s l st eo t m).trace.workspaceCreated = true
    ∧ (execute_code env s l st eo t m).trace.cleanupAttempted = true
    ∧ (env.cleanupFails = false →
        (execute_code env s l st eo t m).trace.workspaceDeleted = true)
    ∧ (∃ r, (execute_code env s l st eo t m).result = .ok r)
    ∧ (execute_code { env with cleanupFails := true } s l st eo t m).result
        = (execute_code { env with cleanupFails := false } s l st eo t m).result := by
  obtain ⟨cfg, hcfg⟩ := lang_config_of_supported env.python_exe l hl
  obtain ⟨r, c, ru, hshape⟩ := fallback_shape env s l st cfg hcfg hmk
  have hexec : execute_code env s l st eo t m = fallback_execute env s l st := by
    unfold execute_code
    rw [if_neg hl]
  refine ⟨?_, ?_, ?_, ?_, ?_⟩
  · rw [hexec, hshape]; rfl
  · rw [hexec, hshape]; rfl
  · intro hcf
    rw [hexec, hshape]
    simp [finishOut, hcf]
  · exact ⟨r, by rw [hexec, hshape]; rfl⟩
  · have h1 : execute_code { env with cleanupFails := true } s l st eo t m
        = fallback_execute { env with cleanupFails := true } s l st := by
      unfold execute_code
      rw [if_neg hl]
    have h2 : execute_code { env with cleanupFails := false } s l st eo t m
        = fallback_execute { env with cleanupFails := false } s l st := by
      unfold execute_code
      rw [if_neg hl]
    rw [h1, h2]
    exact fallback_result_cleanup_independent env s l st true false

/-- C5 witness: instantiation at a default-environment python request. -/
theorem c5_workspace_cleanup_witness :
    (execute_code {} "print(1)" "python" none none 5 128000).trace.workspaceCreated = true
    ∧ (execute_code {} "print(1)" "python" none none 5 128000).trace.cleanupAttempted = true
    ∧ (({} : Env).cleanupFails = false →
        (execute_code {} "print(1)" "python" none none 5 128000).trace.workspaceDeleted = true)
    ∧ (∃ r, (execute_code {} "print(1)" "python" none none 5 128000).result = .ok r)
    ∧ (execute_code { cleanupFails := true } "print(1)" "python" none none 5 128000).result
        = (execute_code { cleanupFails := false } "print(1)" "python" none none 5 128000).result :=
  c5_workspace_cleanup {} "print(1)" "python" none none 5 128000 rfl (by decide)

/-- When the workspace and source file are set up, any compile phase
succeeds, and the spawned run process finishes within the hard-coded
5-second deadline, `execute_code` returns through the `finally` clause with
the captured streams and the exit-code-driven verdict. -/
lemma execute_run_completion (env : Env) (s l : String) (st eo : Option String)
    (t : Rat) (m : Int) (cfg : LangConfig) (b : ProcBehavior)
    (hl : ¬ LANGUAGE_MAP l = none)
    (hcfg : lang_config env.python_exe l = some cfg)
    (hmk : env.mkdtempFault = none) (hwf : env.writeFault = none)
    (hcompile : ∀ cl, cfg.compile = some cl →
        ∃ cb, env.compileSpawn = .ok cb ∧ ¬ cb.duration > 30 ∧ cb.returncode = 0)
    (hrs : env.runSpawn = .ok b) (hrb : ¬ b.duration > 5) :
    execute_code env s l st eo t m =
      finishOut env
        { stdout := if b.stdout = "" then none else some b.stdout,
          stderr := if b.stderr = "" then none else some b.stderr,
          status := if b.returncode = 0 then "Accepted" else "Runtime Error",
          status_id := if b.returncode = 0 then 3 else 11,
          exit_code := some b.returncode }
        cfg.compile.isSome true := by
  unfold execute_code
  rw [if_neg hl]
  unfold fallback_execute
  simp only [hcfg, hmk, hwf]
  rcases hcc : cfg.compile with _ | cl
  · simp only [hcc, run_phase, hrs, if_neg hrb, Option.isSome]
  · obtain ⟨cb, hcb, hcbd, hcbr⟩ := hcompile cl hcc
    have hne : ¬ (cb.returncode ≠ 0) := fun hh => hh hcbr
    simp only [hcc, compile_phase, hcb, if_neg hcbd, if_neg hne, run_phase, hrs,
      if_neg hrb, Option.isSome]

/-- C8: for every request whose run phase completes within the deadline, the
verdict is `"Accepted"` with status id 3 exactly when the process exit code
is 0 and `"Runtime Error"` with status id 11 otherwise, and the captured
stdout, stderr and exit code are set on the result in both cases. -/
theorem c8_run_verdict (env : Env) (s l : String) (st eo : Option String)
    (t : Rat) (m : Int) (cfg : LangConfig) (b : ProcBehavior)
    (hl : ¬ LANGUAGE_MAP l = none)
    (hcfg : lang_config env.python_exe l = some cfg)
    (hmk : env.mkdtempFault = none) (hwf : env.writeFault = none)
    (hcompile : ∀ cl, cfg.compile = some cl →
        ∃ cb, env.compileSpawn = .ok cb ∧ ¬ cb.duration > 30 ∧ cb.returncode = 0)
    (hrs : env.runSpawn = .ok b) (hrb : ¬ b.duration > 5) :
    (execute_code env s l st eo t m).result =
      .ok { stdout := if b.stdout = "" then none else some b.stdout,
            stderr := if b.stderr = "" then none else some b.stderr,
            status := if b.returncode = 0 then "Accepted" else "Runtime Error",
            status_id := if b.returncode = 0 then 3 else 11,
            exit_code := some b.returncode }
    ∧ (execute_code env s l st eo t m).trace.runAttempted = true := by
  rw [execute_run_completion env s l st eo t m cfg b hl hcfg hmk hwf hcompile hrs hrb]
  exact ⟨rfl, rfl⟩

/-- C8 witness: a python request whose process prints `hello` and exits 0
within the deadline is `Accepted` (status id 3) with its streams captured. -/
theorem c8_run_verdict_witness :
    (execute_code { runSpawn := .ok { duration := 1, stdout := "hello\n", stderr := "", returncode := 0 } }
        "print(1)" "python" none none 5 128000).result =
      .ok { stdout := some "hello\n", stderr := none, status := "Accepted",
            status_id := 3, exit_code := some 0 }
    ∧ (execute_code { runSpawn := .ok { duration := 1, stdout := "hello\n", stderr := "", returncode := 0 } }
        "print(1)" "python" none none 5 128000).trace.runAttempted = true :=
  c8_run_verdict
    { runSpawn := .ok { duration := 1, stdout := "hello\n", stderr := "", returncode := 0 } }
    "print(1)" "python" none none 5 128000
    { ext := ".py", compile := none, run := ["python3"] }
    { duration := 1, stdout := "hello\n", stderr := "", returncode := 0 }
    (by decide) rfl rfl rfl (fun _ h => nomatch h) rfl (by decide)

/-- C10: when the run phase actually executes and the process writes zero
bytes to stdout (respectively stderr), the returned result's stdout
(respectively stderr) is `none` — never the empty string — and in
`check_solution` such a case's recorded actual output is the empty string
after stripping. -/
theorem c10_empty_streams_absent (env : Env) (s l : String) (st eo : Option String)
    (t : Rat) (m : Int) (cfg : LangConfig) (b : ProcBehavior) (i : Nat) (tc : TestCase)
    (hl : ¬ LANGUAGE_MAP l = none)
    (hcfg : lang_config env.python_exe l = some cfg)
    (hmk : env.mkdtempFault = none) (hwf : env.writeFault = none)
    (hcompile : ∀ cl, cfg.compile = some cl →
        ∃ cb, env.compileSpawn = .ok cb ∧ ¬ cb.duration > 30 ∧ cb.returncode = 0)
    (hrs : env.runSpawn = .ok b) (hrb : ¬ b.duration > 5) :
    (b.stdout = "" → (execute_code env s l st eo t m).result.map (·.stdout) = .ok none)
    ∧ (b.stderr = "" → (execute_code env s l st eo t m).result.map (·.stderr) = .ok none)
    ∧ (b.stdout = "" → (run_case env s l t i tc).map (·.actual) = .ok "") := by
  refine ⟨?_, ?_, ?_⟩
  · intro h0
    rw [execute_run_completion env s l st eo t m cfg b hl hcfg hmk hwf hcompile hrs hrb]
    simp [finishOut, h0, Except.map]
  · intro h0
    rw [execute_run_completion env s l st eo t m cfg b hl hcfg hmk hwf hcompile hrs hrb]
    simp [finishOut, h0, Except.map]
  · intro h0
    unfold run_case
    rw [execute_run_completion env s l (some (tc.input.getD "")) tc.expected_output t 128000
      cfg b hl hcfg hmk hwf hcompile hrs hrb]
    simp [finishOut, h0, Except.map, pyStrip, isPyWhitespace]

/-- C10 witness: a python request whose process completes with zero bytes on
both streams yields `stdout = none` and `stderr = none`, and the recorded
actual output of the corresponding test case is the empty string. -/
theorem c10_empty_streams_absent_witness :
    ((execute_code { runSpawn := .ok { duration := 1, stdout := "", stderr := "", returncode := 0 } }
        "print(1)" "python" none none 5 128000).result.map (·.stdout) = .ok none)
    ∧ ((execute_code { runSpawn := .ok { duration := 1, stdout := "", stderr := "", returncode := 0 } }
        "print(1)" "python" none none 5 128000).result.map (·.stderr) = .ok none)
    ∧ ((run_case { runSpawn := .ok { duration := 1, stdout := "", stderr := "", returncode := 0 } }
        "print(1)" "python" 5 0 { input := some "", expected_output := some "" }).map
        (·.actual) = .ok "") := by
  have h := c10_empty_streams_absent
    { runSpawn := .ok { duration := 1, stdout := "", stderr := "", returncode := 0 } }
    "print(1)" "python" none none 5 128000
    { ext := ".py", compile := none, run := ["python3"] }
    { duration := 1, stdout := "", stderr := "", returncode := 0 }
    0 { input := some "", expected_output := some "" }
    (by decide) rfl rfl rfl (fun _ hh => nomatch hh) rfl (by decide)
  exact ⟨h.1 rfl, h.2.1 rfl, h.2.2 rfl⟩

/-- C7: for every compiled-language request (`c`, `cpp`, `java`) whose
compiler process exits non-zero within the compile ceiling, `execute_code`
returns `"Compilation Error"` with status id 6, `compile_output` equal to the
captured compiler stderr (or the generic message when that stderr is empty),
`exit_code` equal to the compiler's exit code, no stdout, and the run phase
is skipped (`runAttempted = false`). -/
theorem c7_compilation_error (env : Env) (s l : String) (st eo : Option String)
    (t : Rat) (m : Int) (cb : ProcBehavior)
    (hl : l = "c" ∨ l = "cpp" ∨ l = "java")
    (hmk : env.mkdtempFault = none) (hwf : env.writeFault = none)
    (hcs : env.compileSpawn = .ok cb) (hdur : ¬ cb.duration > 30)
    (hrc : cb.returncode ≠ 0) :
    execute_code env s l st eo t m =
      { result := .ok
          { stdout := none, stderr := none,
            compile_output := some (if cb.stderr = "" then "Compilation failed" else cb.stderr),
            status := "Compilation Error", status_id := 6,
            exit_code := some cb.returncode },
        trace := { workspaceCreated := true, compileAttempted := true, runAttempted := false,
                   cleanupAttempted := true, workspaceDeleted := !env.cleanupFails } } := by
  rcases hl with h | h | h <;> subst h <;>
  · unfold execute_code
    rw [if_neg (by decide)]
    unfold fallback_execute
    simp only [lang_config, hmk, hwf, compile_phase, hcs, if_neg hdur,
      if_pos hrc, finishOut]
    rfl

/-- C7 witness: an invalid C translation unit whose compiler exits 1 with a
diagnostic on stderr. -/
theorem c7_compilation_error_witness :
    execute_code
        { compileSpawn := .ok
            { duration := 1, stdout := "",
              stderr := "code.c:1: error: expected semicolon", returncode := 1 } }
        "int main(void) broken" "c" none none 5 128000 =
      { result := .ok
          { stdout := none, stderr := none,
            compile_output := some "code.c:1: error: expected semicolon",
            status := "Compilation Error", status_id := 6, exit_code := some 1 },
        trace := { workspaceCreated := true, compileAttempted := true, runAttempted := false,
                   cleanupAttempted := true, workspaceDeleted := true } } :=
  c7_compilation_error
    { compileSpawn := .ok
        { duration := 1, stdout := "",
          stderr := "code.c:1: error: expected semicolon", returncode := 1 } }
    "int main(void) broken" "c" none none 5 128000
    { duration := 1, stdout := "", stderr := "code.c:1: error: expected semicolon", returncode := 1 }
    (Or.inl rfl) rfl rfl rfl (by decide) (by decide)

/-- C4 counterexample: a test case whose execution yields the non-`Accepted`
verdict `"Runtime Error"` (process exits 1 with no stdout) but whose expected
output strips to the empty string is recorded as PASSED by `check_solution`,
because pass/fail only compares stripped outputs and never consults the
verdict. -/
theorem c4_nonaccepted_recorded_passed :
    check_solution
        (fun _ => { runSpawn := .ok { duration := 0, stdout := "", stderr := "boom", returncode := 1 } })
        "print(1)" "python" [{ input := some "", expected_output := some "" }] 5 =
      .ok { passed := 1, total := 1, all_passed := true,
            results := [{ test_case := 1, passed := true, input := "", expected := "",
                          actual := "", status := "Runtime Error", time := none,
                          error := some "boom" }] }
    ∧ "Runtime Error" ≠ "Accepted" :=
  ⟨rfl, by decide⟩

/-- C4 amended: `check_solution` records a case as passed exactly when the
stripped stdout equals the stripped expected output, regardless of the
verdict (so a non-`Accepted` case is recorded as failed only when that
comparison fails, e.g. whenever the stripped expected output is non-empty
and stdout is absent; a case with an `Accepted` verdict but mismatched
output is likewise failed); the case's `error` field surfaces the
execution's stderr or, when stderr is falsy, its compile output. -/
theorem c4_case_pass_iff_output_match (env : Env) (s l : String) (t : Rat) (i : Nat)
    (tc : TestCase) (res : ExecutionResult)
    (h : (execute_code env s l (some (tc.input.getD "")) tc.expected_output t 128000).result
        = .ok res) :
    run_case env s l t i tc =
      .ok { test_case := i + 1,
            passed := pyStrip (res.stdout.getD "") == pyStrip (tc.expected_output.getD ""),
            input := tc.input.getD "",
            expected := pyStrip (tc.expected_output.getD ""),
            actual := pyStrip (res.stdout.getD ""),
            status := res.status, time := res.time,
            error := pyOr res.stderr res.compile_output } := by
  unfold run_case
  rw [h]

/-- C4 witness: a process that prints the expected output but exits 1
(`"Runtime Error"` verdict) is still recorded as passed, with its stderr
surfaced as the case's error. -/
theorem c4_case_pass_iff_output_match_witness :
    run_case { runSpawn := .ok { duration := 0, stdout := "5\n", stderr := "crash", returncode := 1 } }
        "print(5)" "python" 5 0 { input := some "", expected_output := some "5" } =
      .ok { test_case := 1,
            passed := pyStrip "5\n" == pyStrip "5",
            input := "", expected := pyStrip "5", actual := pyStrip "5\n",
            status := "Runtime Error", time := none,
            error := pyOr (some "crash") none } :=
  c4_case_pass_iff_output_match
    { runSpawn := .ok { duration := 0, stdout := "5\n", stderr := "crash", returncode := 1 } }
    "print(5)" "python" 5 0 { input := some "", expected_output := some "5" }
    { stdout := some "5\n", stderr := some "crash", status := "Runtime Error",
      status_id := 11, exit_code := some 1 }
    rfl

/-- C9: in `check_solution` the output comparison strips leading and trailing
whitespace from both the run's stdout and the case's expected output and then
requires exact string equality (no normalization of internal whitespace):
the recorded pass flag is exactly the stripped-equality test; concretely,
expected `"42"` against actual `"42\n"` passes while expected `"42"` against
actual `" 43"` fails, and `pyStrip` leaves internal whitespace intact. -/
theorem c9_output_comparison :
    (∀ (env : Env) (s l : String) (t : Rat) (i : Nat) (tc : TestCase) (res : ExecutionResult),
        (execute_code env s l (some (tc.input.getD "")) tc.expected_output t 128000).result
            = .ok res →
        (run_case env s l t i tc).map (·.passed)
            = .ok (pyStrip (res.stdout.getD "") == pyStrip (tc.expected_output.getD "")))
    ∧ check_solution
        (fun i => if i = 0
          then { runSpawn := .ok { duration := 0, stdout := "42\n", stderr := "", returncode := 0 } }
          else { runSpawn := .ok { duration := 0, stdout := " 43", stderr := "", returncode := 0 } })
        "print(x)" "python"
        [{ input := some "", expected_output := some "42" },
         { input := some "", expected_output := some "42" }] 5 =
      .ok { passed := 1, total := 2, all_passed := false,
            results := [
              { test_case := 1, passed := true, input := "", expected := "42", actual := "42",
                status := "Accepted", time := none, error := none },
              { test_case := 2, passed := false, input := "", expected := "42", actual := "43",
                status := "Accepted", time := none, error := none }] }
    ∧ pyStrip " 4 2\t\n" = "4 2" := by
  refine ⟨?_, rfl, rfl⟩
  intro env s l t i tc res h
  unfold run_case
  rw [h]
  rfl

/-- C9 witness: instantiation of the comparison characterization at a
concrete accepted run printing `42` with a trailing newline. -/
theorem c9_output_comparison_witness :
    (run_case { runSpawn := .ok { duration := 0, stdout := "42\n", stderr := "", returncode := 0 } }
        "print(x)" "python" 5 0 { input := some "", expected_output := some "42" }).map (·.passed)
      = .ok (pyStrip "42\n" == pyStrip "42") :=
  c9_output_comparison.1
    { runSpawn := .ok { duration := 0, stdout := "42\n", stderr := "", returncode := 0 } }
    "print(x)" "python" 5 0 { input := some "", expected_output := some "42" }
    { stdout := some "42\n", stderr := none, status := "Accepted", status_id := 3,
      exit_code := some 0 }
    rfl
